import Mathlib

/-!
Shallow embedding of the Halite III gym environment
(`Halite3/haliteenv/haliteenv.py`) and verification of its specification.

The game map `self.map` is a `mapSize x mapSize x 6` array; we model each
layer as a total function `Int -> Int -> _` indexed `(y, x)` exactly as the
source indexes `self.map[y, x, layer]`:
  layer 0 `floor`    : halite on the sea floor,
  layer 1 `carried`  : halite on ships (and under factories/dropoffs),
  layer 2 `struct`   : 1 = Factory, -1 = Dropoff, 0 = none,
  layer 3 `ship`     : ship present,
  layer 4 `owner`    : ownership id,
  layer 5 `inspired` : inspiration flag,
and `self.playerHalite` as `bank : Int -> Int`, indexed by `owner - 1` as in
the source.  Halite quantities live in numpy float arrays but every value the
program stores in them is integer-valued, so they are modelled as `Int`.
-/

namespace Halite

/- Game constants from `class Constants` (source lines 525-558); the original
upper-case names are kept in the doc comments. -/
namespace Constants

/-- Constant DROPOFF_COST. -/
def dropoffCost : Int := 4000

/-- Constant EXTRACT_RATIO. -/
def extractRatio : Int := 4

/-- Constant INSPIRED_EXTRACT_RATIO. -/
def inspiredExtractRatio : Int := 4

/-- Constant INSPIRED_BONUS_MULTIPLIER, `2.0` in the source; it only ever
multiplies integer-valued floats, so it is modelled as the integer 2. -/
def inspiredBonusMultiplier : Int := 2

/-- Constant INSPIRED_MOVE_COST_RATIO. -/
def inspiredMoveCostRatio : Int := 10

/-- Constant MOVE_COST_RATIO. -/
def moveCostRatio : Int := 10

/-- Constant MAX_ENERGY. -/
def maxEnergy : Int := 1000

/-- Constant NEW_ENTITY_ENERGY_COST. -/
def newEntityEnergyCost : Int := 1000

end Constants

/-- World state: the six layers of `self.map` plus `self.playerHalite`. -/
structure World where
  size : Nat
  floor : Int → Int → Int
  carried : Int → Int → Int
  struct : Int → Int → Int
  ship : Int → Int → Bool
  owner : Int → Int → Int
  inspired : Int → Int → Bool
  bank : Int → Int

/-- Pointwise update of a two-dimensional layer (one numpy cell assignment). -/
def upd {α : Type} (f : Int → Int → α) (y x : Int) (v : α) : Int → Int → α :=
  fun y' x' => if y' = y ∧ x' = x then v else f y' x'

/-- Pointwise update of a one-dimensional array (`self.playerHalite[i] = v`). -/
def upd1 {α : Type} (f : Int → α) (i : Int) (v : α) : Int → α :=
  fun i' => if i' = i then v else f i'

/-- numpy index resolution: a negative index counts from the end of the axis.
`self.map[-1, x]` reads row `size - 1`.  (Indices `≥ size` would raise
IndexError; the environment never produces them.) -/
def npIdx (n : Nat) (i : Int) : Int := if i < 0 then (n : Int) + i else i

/-- The integers in `[a, b)`, in increasing order: the index range of a
numpy slice `a:b` (after the Python negative-start resolution). -/
def intRange (a b : Int) : List Int :=
  (List.range (b - a).toNat).map (fun k => a + (k : Int))

/-- `HaliteEnv.destroyShip` (source lines 210-225): dumps the carried
halite on the floor, clears the ship flag, and clears ownership unless a
structure remains on the cell. -/
def destroyShip (w : World) (shipX shipY : Int) : World :=
  let w1 := { w with
    floor := upd w.floor shipY shipX (w.floor shipY shipX + w.carried shipY shipX),
    carried := upd w.carried shipY shipX 0,
    ship := upd w.ship shipY shipX false }
  if w1.struct shipY shipX = 0 then
    { w1 with owner := upd w1.owner shipY shipX 0 }
  else w1

/-- `HaliteEnv.constructDropoff` (source lines 227-251).  Fails when
`playerHalite[owner-1] + floor - DROPOFF_COST < 0`; otherwise credits the
floor halite to the bank, debits DROPOFF_COST, clears the ship flag, writes a
Dropoff (-1) into the structure layer and zeroes the floor halite. -/
def constructDropoff (w : World) (shipX shipY : Int) : Bool × World :=
  let o := w.owner shipY shipX - 1
  if w.bank o + w.floor shipY shipX - Constants.dropoffCost < 0 then (false, w)
  else
    let b1 := upd1 w.bank o (w.bank o + w.floor shipY shipX)
    let b2 := upd1 b1 o (b1 o - Constants.dropoffCost)
    (true, { w with
      bank := b2,
      ship := upd w.ship shipY shipX false,
      struct := upd w.struct shipY shipX (-1),
      floor := upd w.floor shipY shipX 0 })

/-- `HaliteEnv.attemptMove` (source lines 301-362).  Collision handling and
deposit; coordinates go through `npIdx` because `moveShip` passes `shipY - 1`
for a southern move, which numpy resolves from the end of the axis when it is
negative.  The three branches mirror the source: enemy-ship collision
(lines 321-338), structure cell (lines 339-353), plain move (lines 354-362). -/
def attemptMove (w : World) (shipX shipY newX newY : Int) : Bool × World :=
  let sx := npIdx w.size shipX
  let sy := npIdx w.size shipY
  let nx := npIdx w.size newX
  let ny := npIdx w.size newY
  if w.ship ny nx then
    if w.owner sy sx = w.owner ny nx then (false, w)
    else
      (true, { w with
        owner := upd (upd w.owner sy sx 0) ny nx 0,
        ship := upd (upd w.ship sy sx false) ny nx false,
        floor := upd w.floor ny nx (w.floor ny nx + w.carried sy sx + w.carried ny nx),
        carried := upd (upd w.carried ny nx 0) sy sx 0 })
  else if (w.struct ny nx).natAbs = 1 then
    if w.owner ny nx = w.owner sy sx then
      (true, { w with
        carried := upd (upd w.carried ny nx (w.carried ny nx + w.carried sy sx)) sy sx 0,
        bank := upd1 w.bank (w.owner sy sx - 1)
          (w.bank (w.owner sy sx - 1) + w.carried sy sx),
        owner := upd w.owner sy sx 0,
        ship := upd (upd w.ship sy sx false) ny nx true })
    else (false, w)
  else
    (true, { w with
      owner := upd (upd w.owner ny nx (w.owner sy sx)) sy sx 0,
      ship := upd (upd w.ship ny nx true) sy sx false,
      carried := upd (upd w.carried ny nx (w.carried sy sx)) sy sx 0 })

/-- `HaliteEnv.moveShip` (source lines 253-299).  The source computes
`required = floor / cost` in floats and fails when `carried < required`; for
integer values and positive `cost` that comparison is exactly
`carried * cost < floor`, which is how it is modelled here.  Note that the
southern branch of the source (line 293) checks the southern edge but then calls
`attemptMove` with `shipY - 1`, and that any move character other than
N/E/S is treated as West (the bare `else` of line 294). -/
def moveShip (w : World) (shipX shipY : Int) (move : Char) : Bool × World :=
  let cost : Int :=
    if w.inspired shipY shipX then Constants.inspiredMoveCostRatio
    else Constants.moveCostRatio
  if w.carried shipY shipX * cost < w.floor shipY shipX then (false, w)
  else if move = 'N' then
    if shipY = 0 then (false, w)
    else attemptMove w shipX shipY shipX (shipY - 1)
  else if move = 'E' then
    if shipX = (w.size : Int) - 1 then (false, w)
    else attemptMove w shipX shipY (shipX + 1) shipY
  else if move = 'S' then
    if shipY = (w.size : Int) - 1 then (false, w)
    else attemptMove w shipX shipY shipX (shipY - 1)
  else
    if shipX = 0 then (false, w)
    else attemptMove w shipX shipY (shipX - 1) shipY

/-- `HaliteEnv.spawnShip` (source lines 364-390). -/
def spawnShip (w : World) (factoryX factoryY : Int) : Bool × World :=
  if w.bank (w.owner factoryY factoryX - 1) - Constants.newEntityEnergyCost < 0 then
    (false, w)
  else if w.ship factoryY factoryX then (false, w)
  else
    let o := w.owner factoryY factoryX - 1
    (true, { w with
      bank := upd1 w.bank o (w.bank o - Constants.newEntityEnergyCost),
      ship := upd w.ship factoryY factoryX true,
      carried := upd w.carried factoryY factoryX 0 })

/-- One iteration of the scan loop of `HaliteEnv.isInspired` (source lines
200-206).  `np.where` on the sliced rectangle returns a TUPLE of two index
arrays (relative rows, relative cols), and `for ship in nearShips` iterates
that tuple, so `ship` is a whole index array: line 201 reads `ship[1]` — an
IndexError unless at least two ships were found — and line 202 reads
`ship[0]`, mixing the coordinates of the first two matches; line 203 then
looks up the owner at that scrambled cell (numpy resolves a negative index
from the end of the axis and raises IndexError outside `[-size, size)`) and
compares it with `==` against the owner of the scanning ship. -/
def scanStep (w : World) (arr : List Int) (mX1 mY1 shipX shipY : Int) :
    Except String Bool :=
  match arr with
  | a0 :: a1 :: _ =>
    let x := a1 + mX1
    let y := a0 + mY1
    if -(w.size : Int) ≤ y ∧ y < (w.size : Int) ∧ -(w.size : Int) ≤ x ∧ x < (w.size : Int) then
      Except.ok (decide (w.owner (npIdx w.size y) (npIdx w.size x) = w.owner shipY shipX))
    else Except.error "IndexError: grid index out of range (line 203)"
  | _ => Except.error "IndexError: index 1 is out of bounds for the where array (line 201)"

/-- `HaliteEnv.isInspired` (source lines 161-208).  The early return for an
already-flagged cell is `return true` with a lower-case `true` (line 182), a
NameError.  The scan bounds mirror the source, including the slip at lines
191-193 where the code re-clamps `marginX1` instead of `marginY1`, leaving
`marginY1` possibly negative; a negative slice start is resolved by Python
from the end of the axis (`r1`).  `rel` lists the row-major relative
coordinates of the ships in the rectangle, of which `np.where` returns the
unzipped pair of index arrays; the loop then runs `scanStep` on the row
array and, if that iteration falls through, on the column array.  On the
found-a-ship return (line 205) and on the fall-through return (line 207) the
whole scanned rectangle is flagged as inspired; when the loop raises,
nothing is flagged. -/
def isInspired (w : World) (shipX shipY : Int) : Except String (Bool × World) :=
  if w.inspired shipY shipX then
    Except.error "NameError: name true is not defined (line 182)"
  else
    let n : Int := (w.size : Int)
    let mX1 := if shipX - 6 < 0 then 0 else shipX - 6
    let mX2 := if n ≤ shipX + 6 then n - 1 else shipX + 6
    let mY1 := shipY - 5
    let mY2 := if n ≤ shipY + 5 then n - 1 else shipY + 5
    let r1 := if mY1 < 0 then n + mY1 else mY1
    let rel := ((intRange 0 (mY2 - r1)).flatMap (fun ry =>
      (intRange 0 (mX2 - mX1)).map (fun rx => (ry, rx)))).filter
        (fun p => w.ship (r1 + p.1) (mX1 + p.2))
    let marked : World := { w with inspired := fun yy xx =>
      if r1 ≤ yy ∧ yy < mY2 ∧ mX1 ≤ xx ∧ xx < mX2 then true else w.inspired yy xx }
    match scanStep w (rel.map (fun p => p.1)) mX1 mY1 shipX shipY with
    | Except.error e => Except.error e
    | Except.ok true => Except.ok (true, marked)
    | Except.ok false =>
      match scanStep w (rel.map (fun p => p.2)) mX1 mY1 shipX shipY with
      | Except.error e => Except.error e
      | Except.ok true => Except.ok (true, marked)
      | Except.ok false => Except.ok (false, marked)

/-- `HaliteEnv.step` (source lines 43-137).  The first statement of the
method, line 80, is `playerReward = np.zeros((numPlayers, 1))`, and the name
`numPlayers` is undefined there (the attribute is `self.numPlayers`), so
every call raises NameError before reading or writing any game state.  The
unit-action, structure-action and extraction phases further down are
unreachable dead code — and their `for ... in np.where(...)` loops at lines
84, 102 and 116 would in any case iterate the two index arrays of the
`np.where` tuple, not the matching cells. -/
def step (_w : World) (_acts : Int → Int → Int → Int) : Except String World :=
  Except.error "NameError: name numPlayers is not defined (line 80)"

/-- One quadrant of the generated map: height, width and the three layers the
generator writes (floor halite, structures, ownership); layers 1, 3 and 5 of
the fresh map are identically zero. -/
structure Tile where
  h : Nat
  w : Nat
  floor : Int → Int → Int
  struct : Int → Int → Int
  owner : Int → Int → Int

/-- Tiling-factor loop of `Map.generateFractalMap` (source lines 455-464):
doubles the column tiles, then the row tiles, until the tile count reaches
`numPlayers`; returns `(numTiles, numTileRows, numTileCols)`.  The loop
quadruples `numTiles` per iteration, so `n` rounds of fuel always suffice. -/
def tileLoopAux : Nat → Nat → Nat → Nat → Nat → Nat × Nat × Nat
  | 0, _, tiles, rows, cols => (tiles, rows, cols)
  | fuel + 1, n, tiles, rows, cols =>
    if tiles < n then
      let cols1 := cols * 2
      let tiles1 := tiles * 2
      if tiles1 = n then (tiles1, rows, cols1)
      else tileLoopAux fuel n (tiles1 * 2) (rows * 2) cols1
    else (tiles, rows, cols)

/-- `(numTiles, numTileRows, numTileCols)` for a given player count. -/
def computeTiles (numPlayers : Nat) : Nat × Nat × Nat :=
  tileLoopAux numPlayers numPlayers 1 1 1

/-- Base quadrant of `Map.generateFractalMap` (source lines 465-501).  The
floating-point fractal-noise synthesis of lines 467-478 draws random numbers,
so it is abstracted by the parameter `noise`, giving the integer halite value
`np.round(region)` stores at each quadrant cell (line 481).  The factory is
placed at the quadrant centre, except that for quadrant dimensions between 16
and 40 the source computes `8 + ((tileWidth - 16) / 24.0) * 20` (lines
495-498, an integer-valued-or-truncated float index), modelled by integer
division; `factoryY` gets the interpolated value only when `numPlayers > 2`.
The floor halite of the factory cell is zeroed and its structure and owner are set
to 1 (lines 499-501). -/
def baseTile (mapSize numPlayers : Nat) (noise : Int → Int → Int) : Tile :=
  let tc := computeTiles numPlayers
  let tileWidth := mapSize / tc.2.2
  let tileHeight := mapSize / tc.2.1
  let factoryX : Int :=
    if 16 ≤ tileWidth ∧ tileWidth ≤ 40 ∧ 16 ≤ tileHeight ∧ tileHeight ≤ 40 then
      8 + (((tileWidth : Int) - 16) * 20) / 24
    else (tileWidth : Int) / 2
  let factoryY : Int :=
    if (16 ≤ tileWidth ∧ tileWidth ≤ 40 ∧ 16 ≤ tileHeight ∧ tileHeight ≤ 40) ∧ 2 < numPlayers then
      8 + (((tileHeight : Int) - 16) * 20) / 24
    else (tileHeight : Int) / 2
  { h := tileHeight, w := tileWidth,
    floor := fun y x => if y = factoryY ∧ x = factoryX then 0 else noise y x,
    struct := fun y x => if y = factoryY ∧ x = factoryX then 1 else 0,
    owner := fun y x => if y = factoryY ∧ x = factoryX then 1 else 0 }

/-- Horizontal mirroring step (source lines 507-508):
`np.concatenate((tile, np.fliplr(tile)), axis=1)`. -/
def hconcatTile (t : Tile) : Tile :=
  { h := t.h, w := 2 * t.w,
    floor := fun y x => if x < (t.w : Int) then t.floor y x else t.floor y (2 * (t.w : Int) - 1 - x),
    struct := fun y x => if x < (t.w : Int) then t.struct y x else t.struct y (2 * (t.w : Int) - 1 - x),
    owner := fun y x => if x < (t.w : Int) then t.owner y x else t.owner y (2 * (t.w : Int) - 1 - x) }

/-- Mirroring loop of `Map.generateFractalMap` (source lines 504-517).  With
`numTiles = 1`: if more than one tile is needed the quadrant is mirrored
horizontally; the loop breaks when two tiles suffice, and otherwise reaches
line 515, `tile = np.concatenate(tile, flip)`, which passes the flipped array
as the `axis` argument of `np.concatenate` and raises TypeError — so any
later iterations of the loop are unreachable and the error is modelled here.
-/
def mirrorTiles (t : Tile) (numPlayers : Nat) : Except String Tile :=
  if 1 < numPlayers then
    let t1 := hconcatTile t
    if 2 = numPlayers then Except.ok t1
    else Except.error "np.concatenate(tile, flip) passes the flipped array as the axis argument and raises TypeError"
  else Except.ok t

/-- Multiply the ownership layer of a block by `p`
(one assignment of source line 521). -/
def multBlock (f : Int → Int → Int) (y1 y2 x1 x2 p : Int) : Int → Int → Int :=
  fun y x => if y1 ≤ y ∧ y < y2 ∧ x1 ≤ x ∧ x < x2 then f y x * p else f y x

/-- Ownership assignment loop of `Map.generateFractalMap` (source lines
518-522): column blocks outermost, row blocks innermost, multiplying each
ownership layer of each block by an incrementing player number. -/
def assignOwners (t : Tile) (tileWidth tileHeight : Nat) : Tile :=
  let cols := t.w / tileWidth
  let rows := t.h / tileHeight
  let idx := (List.range cols).flatMap (fun i => (List.range rows).map (fun j => (i, j)))
  let own := (idx.foldl
    (fun (acc : (Int → Int → Int) × Int) ij =>
      (multBlock acc.1 ((ij.2 : Int) * (tileHeight : Int)) (((ij.2 : Int) + 1) * (tileHeight : Int))
        ((ij.1 : Int) * (tileWidth : Int)) (((ij.1 : Int) + 1) * (tileWidth : Int)) acc.2,
       acc.2 + 1))
    (t.owner, 1)).1
  { t with owner := own }

/-- `Map.generateFractalMap` (source lines 451-523): tiling factors, base
quadrant, mirroring (which can raise, see `mirrorTiles`), then ownership
assignment.  `HaliteEnv.__init__` (line 36) calls this before anything else,
so an error here aborts environment construction. -/
def generateFractalMap (mapSize numPlayers : Nat) (noise : Int → Int → Int) :
    Except String Tile :=
  match mirrorTiles (baseTile mapSize numPlayers noise) numPlayers with
  | Except.error e => Except.error e
  | Except.ok t =>
      Except.ok (assignOwners t (mapSize / (computeTiles numPlayers).2.2)
        (mapSize / (computeTiles numPlayers).2.1))

/-- Destination cell `(newX, newY)` that `moveShip` passes to `attemptMove`
for each move character (source lines 281, 287, 293 and 299); the final case
covers West and every other character, as in the source. -/
def codeDest (m : Char) (x y : Int) : Int × Int :=
  if m = 'N' then (x, y - 1)
  else if m = 'E' then (x + 1, y)
  else if m = 'S' then (x, y - 1)
  else (x - 1, y)

/-- An all-Idle action grid (opcode 0 everywhere, for every player). -/
def idleActs : Int → Int → Int → Int := fun _ _ _ => 0

/-- An all-SpawnUnit action grid (opcode 1 everywhere, for every player). -/
def spawnActs : Int → Int → Int → Int := fun _ _ _ => 1

/-- The scenario of claim C1: an otherwise empty 32 x 32 grid, two players,
one ship each (players 1 and 2 at cells `(y, x) = (8, 8)` and `(24, 24)`),
each ship carrying 0 and standing on 1000 floor halite. -/
def c1World : World :=
  { size := 32,
    floor := fun y x => if (y = 8 ∧ x = 8) ∨ (y = 24 ∧ x = 24) then 1000 else 0,
    carried := fun _ _ => 0,
    struct := fun _ _ => 0,
    ship := fun y x => if (y = 8 ∧ x = 8) ∨ (y = 24 ∧ x = 24) then true else false,
    owner := fun y x => if y = 8 ∧ x = 8 then 1 else if y = 24 ∧ x = 24 then 2 else 0,
    inspired := fun _ _ => false,
    bank := fun _ => 5000 }

/-- A 32 x 32 world holding a single ship, owned by player 1, at
`(y, x) = (16, 16)`: no other unit exists anywhere on the map. -/
def c2World : World :=
  { size := 32,
    floor := fun _ _ => 0, carried := fun _ _ => 0, struct := fun _ _ => 0,
    ship := fun y x => if y = 16 ∧ x = 16 then true else false,
    owner := fun y x => if y = 16 ∧ x = 16 then 1 else 0,
    inspired := fun _ _ => false, bank := fun _ => 5000 }

/-- A 4 x 4 world with one ship of player 1 at `(y, x) = (1, 1)` carrying
5000 halite, and a Factory of the same player at `(1, 2)`. -/
def c3World : World :=
  { size := 4,
    floor := fun _ _ => 0,
    carried := fun y x => if y = 1 ∧ x = 1 then 5000 else 0,
    struct := fun y x => if y = 1 ∧ x = 2 then 1 else 0,
    ship := fun y x => if y = 1 ∧ x = 1 then true else false,
    owner := fun y x => if (y = 1 ∧ x = 1) ∨ (y = 1 ∧ x = 2) then 1 else 0,
    inspired := fun _ _ => false, bank := fun _ => 0 }

/-- A 4 x 4 world with a ship of player 1 at `(1, 1)` carrying 5 halite and
an enemy ship of player 2 at `(1, 2)` carrying 7, over 10 floor halite. -/
def c4World : World :=
  { size := 4,
    floor := fun y x => if y = 1 ∧ x = 2 then 10 else 0,
    carried := fun y x => if y = 1 ∧ x = 1 then 5 else if y = 1 ∧ x = 2 then 7 else 0,
    struct := fun _ _ => 0,
    ship := fun y x => if (y = 1 ∧ x = 1) ∨ (y = 1 ∧ x = 2) then true else false,
    owner := fun y x => if y = 1 ∧ x = 1 then 1 else if y = 1 ∧ x = 2 then 2 else 0,
    inspired := fun _ _ => false, bank := fun _ => 0 }

/-- A 4 x 4 world with a single ship of player 1 at `(y, x) = (2, 1)`, in the
interior of the grid. -/
def c5World : World :=
  { size := 4,
    floor := fun _ _ => 0, carried := fun _ _ => 0, struct := fun _ _ => 0,
    ship := fun y x => if y = 2 ∧ x = 1 then true else false,
    owner := fun y x => if y = 2 ∧ x = 1 then 1 else 0,
    inspired := fun _ _ => false, bank := fun _ => 0 }

/-- A 4 x 4 world with a single ship of player 1 at `(y, x) = (0, 1)`, on the
northern edge of the grid. -/
def c5EdgeWorld : World :=
  { size := 4,
    floor := fun _ _ => 0, carried := fun _ _ => 0, struct := fun _ _ => 0,
    ship := fun y x => if y = 0 ∧ x = 1 then true else false,
    owner := fun y x => if y = 0 ∧ x = 1 then 1 else 0,
    inspired := fun _ _ => false, bank := fun _ => 0 }

/-- A 4 x 4 world with a ship of player 1 at `(1, 1)` on 100 floor halite,
while the bank of player 1 holds 0: the scenario of claim C6. -/
def c6World : World :=
  { size := 4,
    floor := fun y x => if y = 1 ∧ x = 1 then 100 else 0,
    carried := fun y x => if y = 1 ∧ x = 1 then 30 else 0,
    struct := fun _ _ => 0,
    ship := fun y x => if y = 1 ∧ x = 1 then true else false,
    owner := fun y x => if y = 1 ∧ x = 1 then 1 else 0,
    inspired := fun _ _ => false, bank := fun _ => 0 }

/-- A 2 x 2 world whose only structure is a Factory of player 1 at `(0, 1)`,
no units anywhere, and a bank of 1500. -/
def c8FactoryWorld : World :=
  { size := 2,
    floor := fun _ _ => 0, carried := fun _ _ => 0,
    struct := fun y x => if y = 0 ∧ x = 1 then 1 else 0,
    ship := fun _ _ => false,
    owner := fun y x => if y = 0 ∧ x = 1 then 1 else 0,
    inspired := fun _ _ => false, bank := fun _ => 1500 }

/-- A 4 x 4 world with a single ship of player 1 at `(2, 2)` carrying 3
halite over 8 floor halite. -/
def c10World : World :=
  { size := 4,
    floor := fun y x => if y = 2 ∧ x = 2 then 8 else 0,
    carried := fun y x => if y = 2 ∧ x = 2 then 3 else 0,
    struct := fun _ _ => 0,
    ship := fun y x => if y = 2 ∧ x = 2 then true else false,
    owner := fun y x => if y = 2 ∧ x = 2 then 1 else 0,
    inspired := fun _ _ => false, bank := fun p => if p = 0 then 77 else 0 }

theorem upd_self {α : Type} (f : Int → Int → α) (y x : Int) (v : α) :
    upd f y x v y x = v := by
  simp [upd]

theorem upd_ne {α : Type} (f : Int → Int → α) (y x : Int) (v : α) {y' x' : Int}
    (h : ¬(y' = y ∧ x' = x)) : upd f y x v y' x' = f y' x' := by
  simp only [upd]
  rw [if_neg h]

theorem upd1_self {α : Type} (f : Int → α) (i : Int) (v : α) : upd1 f i v i = v := by
  simp [upd1]

theorem upd1_ne {α : Type} (f : Int → α) (i : Int) (v : α) {i' : Int} (h : i' ≠ i) :
    upd1 f i v i' = f i' := by
  simp [upd1, h]

theorem npIdx_of_nonneg (n : Nat) {i : Int} (h : 0 ≤ i) : npIdx n i = i := by
  unfold npIdx
  rw [if_neg (by omega)]

/-- Claim C4: a unit moving onto a cell occupied by a unit of a different
owner destroys both units — the destination floor halite absorbs the sum of
both carried amounts, both carried values become zero, both unit flags and
owner fields are cleared, and no bank balance changes (source lines 321-338).
-/
theorem c4_enemy_collision (w : World) (x y nx ny : Int)
    (hx : 0 ≤ x) (hy : 0 ≤ y) (hnx : 0 ≤ nx) (hny : 0 ≤ ny)
    (hship : w.ship ny nx = true)
    (hown : w.owner y x ≠ w.owner ny nx) :
    (attemptMove w x y nx ny).1 = true
    ∧ (attemptMove w x y nx ny).2.floor ny nx
        = w.floor ny nx + w.carried y x + w.carried ny nx
    ∧ (attemptMove w x y nx ny).2.carried y x = 0
    ∧ (attemptMove w x y nx ny).2.carried ny nx = 0
    ∧ (attemptMove w x y nx ny).2.ship y x = false
    ∧ (attemptMove w x y nx ny).2.ship ny nx = false
    ∧ (attemptMove w x y nx ny).2.owner y x = 0
    ∧ (attemptMove w x y nx ny).2.owner ny nx = 0
    ∧ (attemptMove w x y nx ny).2.bank = w.bank := by
  have hne : ¬(ny = y ∧ nx = x) := by
    rintro ⟨h1, h2⟩
    subst h1; subst h2
    exact hown rfl
  have hne' : ¬(y = ny ∧ x = nx) := by
    rintro ⟨h1, h2⟩
    subst h1; subst h2
    exact hown rfl
  simp only [attemptMove, npIdx_of_nonneg _ hx, npIdx_of_nonneg _ hy,
    npIdx_of_nonneg _ hnx, npIdx_of_nonneg _ hny, hship, if_true, if_neg hown]
  refine ⟨?_, ?_, ?_, ?_, ?_, ?_, ?_, ?_, ?_⟩
  all_goals simp [upd, hne, hne']

/-- Witness for C4 at a concrete world: player 1 at `(1, 1)` carrying 5 moves
onto the enemy ship at `(1, 2)` carrying 7 over 10 floor halite. -/
theorem c4_witness :
    (attemptMove c4World 1 1 2 1).2.floor 1 2 = 22
    ∧ (attemptMove c4World 1 1 2 1).2.ship 1 1 = false
    ∧ (attemptMove c4World 1 1 2 1).2.ship 1 2 = false :=
  have h := c4_enemy_collision c4World 1 1 2 1 (by decide) (by decide) (by decide)
    (by decide) (by decide) (by decide)
  ⟨h.2.1, h.2.2.2.2.1, h.2.2.2.2.2.1⟩

/-- Counterexample to claim C3: with a ship of player 1 carrying 5000 moving
onto a Factory of the same player, the destination cell ends the move with a
unit present (`ship = true`, source line 349) and with 5000 accrued on its
carried-halite layer (source line 342), while the claim predicts no unit and
no accrual on any resource layer.  The bank credit of 5000 does happen. -/
theorem c3_counterexample :
    (attemptMove c3World 1 1 2 1).2.ship 1 2 = true
    ∧ (attemptMove c3World 1 1 2 1).2.carried 1 2 = 5000
    ∧ (attemptMove c3World 1 1 2 1).2.bank 0 = 5000 := by
  decide

/-- Claim C3 as amended: when a unit moves onto a structure owned by the same
player, its full carried halite is credited to the bank of the owner and the
origin cell is cleared, but the unit is not removed — the destination cell
ends the move with the unit flag set, and the carried amount also accrues on
the carried-halite layer of the destination cell (source lines 339-350). -/
theorem c3_amended_deposit (w : World) (x y nx ny : Int)
    (hx : 0 ≤ x) (hy : 0 ≤ y) (hnx : 0 ≤ nx) (hny : 0 ≤ ny)
    (hne : ¬(ny = y ∧ nx = x))
    (hnoship : w.ship ny nx = false)
    (hstruct : (w.struct ny nx).natAbs = 1)
    (hown : w.owner ny nx = w.owner y x) :
    (attemptMove w x y nx ny).1 = true
    ∧ (attemptMove w x y nx ny).2.bank (w.owner y x - 1)
        = w.bank (w.owner y x - 1) + w.carried y x
    ∧ (∀ p, p ≠ w.owner y x - 1 → (attemptMove w x y nx ny).2.bank p = w.bank p)
    ∧ (attemptMove w x y nx ny).2.carried ny nx = w.carried ny nx + w.carried y x
    ∧ (attemptMove w x y nx ny).2.carried y x = 0
    ∧ (attemptMove w x y nx ny).2.ship ny nx = true
    ∧ (attemptMove w x y nx ny).2.ship y x = false
    ∧ (attemptMove w x y nx ny).2.owner y x = 0
    ∧ (attemptMove w x y nx ny).2.owner ny nx = w.owner ny nx
    ∧ (attemptMove w x y nx ny).2.floor = w.floor
    ∧ (attemptMove w x y nx ny).2.struct = w.struct := by
  have hne' : ¬(y = ny ∧ x = nx) := by
    rintro ⟨h1, h2⟩
    subst h1; subst h2
    exact hne ⟨rfl, rfl⟩
  simp only [attemptMove, npIdx_of_nonneg _ hx, npIdx_of_nonneg _ hy,
    npIdx_of_nonneg _ hnx, npIdx_of_nonneg _ hny, hnoship, Bool.false_eq_true,
    if_false, hstruct, if_true, if_pos hown]
  exact ⟨by simp, by simp [upd1], by intro p hp; simp [upd1, hp],
    by simp [upd, hne], by simp [upd], by simp [upd], by simp [upd, hne'],
    by simp [upd], by simp [upd, hne], by simp, by simp⟩

/-- Witness for the amended C3 at a concrete world: the ship of player 1
carrying 5000 deposits onto its own Factory; the bank is credited 5000, the
origin is cleared, and the unit sits on the Factory cell. -/
theorem c3_witness :
    (attemptMove c3World 1 1 2 1).1 = true
    ∧ (attemptMove c3World 1 1 2 1).2.bank (c3World.owner 1 1 - 1)
        = c3World.bank (c3World.owner 1 1 - 1) + c3World.carried 1 1
    ∧ (attemptMove c3World 1 1 2 1).2.ship 1 2 = true :=
  have h := c3_amended_deposit c3World 1 1 2 1 (by decide) (by decide) (by decide)
    (by decide) (by decide) (by decide) (by decide) (by decide)
  ⟨h.1, h.2.1, h.2.2.2.2.2.1⟩

/-- Claim C6: `constructDropoff` is atomic — when the bank of the owner plus
the floor halite of the cell is below DROPOFF_COST it fails leaving the world
untouched; otherwise it succeeds, the bank is debited by DROPOFF_COST minus
the floor halite, the unit flag is cleared, the structure becomes a Dropoff
and the floor halite becomes zero (source lines 243-251). -/
theorem c6_dropoff_atomic (w : World) (x y : Int)
    (hship : w.ship y x = true) (hown : 1 ≤ w.owner y x) :
    (w.bank (w.owner y x - 1) + w.floor y x < Constants.dropoffCost →
       constructDropoff w x y = (false, w))
    ∧ (Constants.dropoffCost ≤ w.bank (w.owner y x - 1) + w.floor y x →
       (constructDropoff w x y).1 = true
       ∧ (constructDropoff w x y).2.bank (w.owner y x - 1)
           = w.bank (w.owner y x - 1) + w.floor y x - Constants.dropoffCost
       ∧ (∀ p, p ≠ w.owner y x - 1 → (constructDropoff w x y).2.bank p = w.bank p)
       ∧ (constructDropoff w x y).2.ship y x = false
       ∧ (constructDropoff w x y).2.struct y x = -1
       ∧ (constructDropoff w x y).2.floor y x = 0
       ∧ (constructDropoff w x y).2.carried = w.carried) := by
  constructor
  · intro h
    simp only [constructDropoff]
    rw [if_pos (by omega)]
  · intro h
    simp only [constructDropoff]
    rw [if_neg (by omega)]
    exact ⟨by simp, by simp [upd1], by intro p hp; simp [upd1, hp],
      by simp [upd], by simp [upd], by simp [upd], by simp⟩

/-- Witness for C6 at the concrete scenario of the claim: bank 0, floor 100,
cost 4000 — the conversion fails and the whole world is unchanged. -/
theorem c6_witness : constructDropoff c6World 1 1 = (false, c6World) :=
  (c6_dropoff_atomic c6World 1 1 (by decide) (by decide)).1 (by decide)

/-- Claim C1 evaluated on the code: in the exact scenario of the claim (an
otherwise empty 32 x 32 grid, two players, one ship each with 0 carried
halite over 1000 floor halite, all-Idle action grids) the tick never happens
at all — the first statement of `step`, source line 80, reads the undefined
name `numPlayers` and raises NameError before any phase runs, so no unit
ever comes to carry 250 and no floor halite is ever extracted.  The world is
untouched: the ships still carry 0 over 1000. -/
theorem c1_step_raises_nameerror :
    step c1World idleActs
      = Except.error "NameError: name numPlayers is not defined (line 80)"
    ∧ c1World.carried 8 8 = 0 ∧ c1World.floor 8 8 = 1000
    ∧ c1World.carried 24 24 = 0 ∧ c1World.floor 24 24 = 1000 :=
  ⟨rfl, by decide, by decide, by decide, by decide⟩

/-- Claim C2 evaluated on the code: for a lone ship (no other unit anywhere
on the map, inspiration flags all clear) the claim predicts `isInspired`
returns false; instead the scan loop iterates the two index arrays of the
`np.where` tuple, and with a single ship in the rectangle the first
iteration reads `ship[1]` on a length-1 array and raises IndexError at
source line 201 — `isInspired` returns no Boolean at all. -/
theorem c2_lone_ship_scan_raises :
    (∀ yy xx, ¬(yy = 16 ∧ xx = 16) → c2World.ship yy xx = false)
    ∧ isInspired c2World 16 16
      = Except.error "IndexError: index 1 is out of bounds for the where array (line 201)" :=
  ⟨fun _ _ h => if_neg h, rfl⟩

/-- Claim C5 evaluated on the code: a successful Move-South relocates the
unit one cell NORTH (source line 293 passes `shipY - 1`), and from the
northern edge `y = 0` a Move-South lands the unit on the OPPOSITE southern
edge `y = size - 1` (numpy resolves the index -1 from the end of the axis) —
refuting both the one-cell-south relocation and the no-wraparound parts of
the claim.  The boundary rejections themselves behave as claimed. -/
theorem c5_move_south_eval :
    (moveShip c5World 1 2 'S').1 = true
    ∧ (moveShip c5World 1 2 'S').2.ship 1 1 = true
    ∧ (moveShip c5World 1 2 'S').2.ship 3 1 = false
    ∧ (moveShip c5World 1 2 'S').2.ship 2 1 = false
    ∧ (moveShip c5EdgeWorld 1 0 'S').1 = true
    ∧ (moveShip c5EdgeWorld 1 0 'S').2.ship 3 1 = true
    ∧ (moveShip c5EdgeWorld 1 0 'S').2.ship 0 1 = false := by
  decide

/-- Helper for C7: for three or more players the mirroring loop always
reaches the vertical flip of source line 515 and raises. -/
theorem mirrorTiles_error (t : Tile) (n : Nat) (h : 3 ≤ n) :
    mirrorTiles t n
      = Except.error "np.concatenate(tile, flip) passes the flipped array as the axis argument and raises TypeError" := by
  simp only [mirrorTiles]
  rw [if_pos (by omega : 1 < n), if_neg (by omega : ¬(2 = n))]

/-- Claim C7: for every player count of at least two that is not a power of
two, map generation (and hence environment construction, which runs it
first) ends in an error instead of producing a world state.  In the code
this holds because every such count is at least 3, and for three or more
players the mirroring loop reaches `np.concatenate(tile, flip)` on source
line 515, which passes the flipped array as the axis argument and raises
TypeError before a map is returned. -/
theorem c7_nonpow2_construction_fails (mapSize numPlayers : Nat)
    (noise : Int → Int → Int)
    (h2 : 2 ≤ numPlayers) (hnp : ¬∃ k : Nat, numPlayers = 2 ^ k) :
    ∃ msg, generateFractalMap mapSize numPlayers noise = Except.error msg := by
  have hne2 : numPlayers ≠ 2 := fun h => hnp ⟨1, by omega⟩
  have h3 : 3 ≤ numPlayers := by omega
  refine ⟨"np.concatenate(tile, flip) passes the flipped array as the axis argument and raises TypeError", ?_⟩
  unfold generateFractalMap
  rw [mirrorTiles_error _ _ h3]

/-- Witness for C7: three players are not a power of two, and generation with
three players errors out. -/
theorem c7_witness :
    (¬∃ k : Nat, (3 : Nat) = 2 ^ k)
    ∧ ∃ msg, generateFractalMap 32 3 (fun _ _ => 0) = Except.error msg := by
  have hnp : ¬∃ k : Nat, (3 : Nat) = 2 ^ k := by
    rintro ⟨k, hk⟩
    rcases k with _ | _ | k
    · simp at hk
    · simp at hk
    · have h1 : 1 ≤ 2 ^ k := Nat.one_le_pow k 2 (by omega)
      rw [pow_succ, pow_succ] at hk
      omega
  exact ⟨hnp, c7_nonpow2_construction_fails 32 3 (fun _ _ => 0) (by omega) hnp⟩

/-- Claim C8 evaluated on the code: no structure-action phase ever runs —
`step` raises NameError at its first statement (source line 80, `numPlayers`
undefined) before reaching the factory loop, so no SpawnUnit opcode is ever
looked up for any Factory or Dropoff cell; the claim predicts that at a
Factory with bank 1500 ≥ NEW_ENTITY_COST, no occupying unit and an
all-SpawnUnit action grid the phase spawns a unit.  (Line 102 would in any
case iterate the two index arrays of the `np.where` tuple, an IndexError for
this single-factory grid, and line 101 selects only structure == 1, never
Dropoff cells.)  The per-call spawn rule of `spawnShip` itself (source lines
380-390) does behave as the claim describes: called directly on that Factory
cell it spawns a zero-cargo unit and debits exactly NEW_ENTITY_COST. -/
theorem c8_spawn_phase_unreachable :
    step c8FactoryWorld spawnActs
      = Except.error "NameError: name numPlayers is not defined (line 80)"
    ∧ c8FactoryWorld.struct 0 1 = 1
    ∧ c8FactoryWorld.ship 0 1 = false
    ∧ Constants.newEntityEnergyCost ≤ c8FactoryWorld.bank 0
    ∧ (spawnShip c8FactoryWorld 1 0).1 = true
    ∧ (spawnShip c8FactoryWorld 1 0).2.bank 0 = 500
    ∧ (spawnShip c8FactoryWorld 1 0).2.ship 0 1 = true
    ∧ (spawnShip c8FactoryWorld 1 0).2.carried 0 1 = 0 :=
  ⟨rfl, by decide, by decide, by decide, by decide, by decide, by decide, by decide⟩

/-- Claim C9 evaluated on the code: generating a map for four players (a
supported, power-of-two count) fails — the mirroring loop needs a vertical
flip for more than two players, and source line 515 calls
`np.concatenate(tile, flip)`, passing the flipped array as the axis argument,
which raises TypeError.  No 4-player map with one Factory per player is ever
produced, refuting the for-every-supported-player-count claim. -/
theorem c9_four_player_generation_fails :
    ∃ msg, generateFractalMap 32 4 (fun _ _ => 1) = Except.error msg :=
  ⟨_, rfl⟩

/-- Helper for C10: `attemptMove` into an empty, structure-free cell is the
plain relocation branch of source lines 354-362. -/
theorem attemptMove_empty (w : World) (x y nx ny : Int)
    (hx : 0 ≤ x) (hy : 0 ≤ y) (hnx : 0 ≤ nx) (hny : 0 ≤ ny)
    (hde : w.ship ny nx = false) (hds : w.struct ny nx = 0) :
    attemptMove w x y nx ny
      = (true, { w with
          owner := upd (upd w.owner ny nx (w.owner y x)) y x 0,
          ship := upd (upd w.ship ny nx true) y x false,
          carried := upd (upd w.carried ny nx (w.carried y x)) y x 0 }) := by
  simp only [attemptMove, npIdx_of_nonneg _ hx, npIdx_of_nonneg _ hy,
    npIdx_of_nonneg _ hnx, npIdx_of_nonneg _ hny, hde, hds, Bool.false_eq_true,
    if_false]
  rw [if_neg (by simp)]

/-- Claim C10: moving never costs halite.  The move gate only compares the
carried halite of the unit against the floor halite divided by the move-cost
divisor (modelled as `carried * divisor < floor`), and every successful move
into an empty cell (the destination cell the code computes, `codeDest`)
relocates the carried amount exactly unchanged while every bank balance stays
the same (source lines 271-275 and 354-362). -/
theorem c10_move_is_free (w : World) (x y : Int) (m : Char)
    (hx : 0 ≤ x) (hxn : x < (w.size : Int)) (hy : 0 ≤ y) (hyn : y < (w.size : Int))
    (hgate : ¬(w.carried y x *
        (if w.inspired y x then Constants.inspiredMoveCostRatio else Constants.moveCostRatio)
        < w.floor y x))
    (hgN : m = 'N' → y ≠ 0)
    (hgE : m = 'E' → x ≠ (w.size : Int) - 1)
    (hgS : m = 'S' → y ≠ (w.size : Int) - 1)
    (hgS0 : m = 'S' → y ≠ 0)
    (hgW : ¬(m = 'N') → ¬(m = 'E') → ¬(m = 'S') → x ≠ 0)
    (hde : w.ship (codeDest m x y).2 (codeDest m x y).1 = false)
    (hds : w.struct (codeDest m x y).2 (codeDest m x y).1 = 0) :
    (moveShip w x y m).1 = true
    ∧ (moveShip w x y m).2.carried (codeDest m x y).2 (codeDest m x y).1 = w.carried y x
    ∧ (moveShip w x y m).2.carried y x = 0
    ∧ (moveShip w x y m).2.bank = w.bank := by
  by_cases hN : m = 'N'
  · subst hN
    have hy0 : y ≠ 0 := hgN rfl
    have hde' : w.ship (y - 1) x = false := hde
    have hds' : w.struct (y - 1) x = 0 := hds
    have hne : ¬(y - 1 = y ∧ x = x) := by rintro ⟨h1, _⟩; omega
    simp only [moveShip, if_neg hgate, if_pos rfl, if_neg hy0,
      attemptMove_empty w x y x (y - 1) hx hy hx (by omega) hde' hds', codeDest]
    exact ⟨by simp, by simp [upd, hne], by simp [upd], by simp⟩
  · by_cases hE : m = 'E'
    · subst hE
      have hx1 : x ≠ (w.size : Int) - 1 := hgE rfl
      have hde' : w.ship y (x + 1) = false := hde
      have hds' : w.struct y (x + 1) = 0 := hds
      have hne : ¬(y = y ∧ x + 1 = x) := by rintro ⟨_, h2⟩; omega
      simp only [moveShip, if_neg hgate, if_neg (by decide : ¬('E' = 'N')),
        if_pos rfl, if_neg hx1,
        attemptMove_empty w x y (x + 1) y hx hy (by omega) hy hde' hds', codeDest]
      exact ⟨by simp, by simp [upd, hne], by simp [upd], by simp⟩
    · by_cases hS : m = 'S'
      · subst hS
        have hy1 : y ≠ (w.size : Int) - 1 := hgS rfl
        have hy0 : y ≠ 0 := hgS0 rfl
        have hde' : w.ship (y - 1) x = false := hde
        have hds' : w.struct (y - 1) x = 0 := hds
        have hne : ¬(y - 1 = y ∧ x = x) := by rintro ⟨h1, _⟩; omega
        simp only [moveShip, if_neg hgate, if_neg (by decide : ¬('S' = 'N')),
          if_neg (by decide : ¬('S' = 'E')), if_pos rfl, if_neg hy1,
          attemptMove_empty w x y x (y - 1) hx hy hx (by omega) hde' hds', codeDest]
        exact ⟨by simp, by simp [upd, hne], by simp [upd], by simp⟩
      · have hx0 : x ≠ 0 := hgW hN hE hS
        have hde' : w.ship y (x - 1) = false := by
          have : (codeDest m x y) = (x - 1, y) := by simp [codeDest, hN, hE, hS]
          rw [this] at hde
          exact hde
        have hds' : w.struct y (x - 1) = 0 := by
          have : (codeDest m x y) = (x - 1, y) := by simp [codeDest, hN, hE, hS]
          rw [this] at hds
          exact hds
        have hne : ¬(y = y ∧ x - 1 = x) := by rintro ⟨_, h2⟩; omega
        have hcd : (codeDest m x y) = (x - 1, y) := by simp [codeDest, hN, hE, hS]
        simp only [moveShip, if_neg hgate, if_neg hN, if_neg hE, if_neg hS, if_neg hx0,
          attemptMove_empty w x y (x - 1) y hx hy (by omega) hy hde' hds', hcd]
        exact ⟨by simp, by simp [upd, hne], by simp [upd], by simp⟩

/-- Witness for C10: the ship at `(2, 2)` carrying 3 over 8 floor halite
(gate: 3 * 10 ≥ 8) moves East into the empty cell `(2, 3)`; the carried 3
arrives unchanged and the banks are untouched. -/
theorem c10_witness :
    (moveShip c10World 2 2 'E').1 = true
    ∧ (moveShip c10World 2 2 'E').2.carried 2 3 = c10World.carried 2 2
    ∧ (moveShip c10World 2 2 'E').2.carried 2 2 = 0
    ∧ (moveShip c10World 2 2 'E').2.bank = c10World.bank :=
  c10_move_is_free c10World 2 2 'E' (by decide) (by decide) (by decide) (by decide)
    (by decide) (by decide) (by decide) (by decide) (by decide) (by decide)
    (by decide) (by decide)

end Halite
